import Mathlib

/-!
Verification of the rollup transaction-validation circuit core
(`rollup/src/transaction.rs`).

The circuit code is shallowly embedded: circuit booleans are modelled by
their witness values (`Bool`), fallible gadget construction by
`Except SynthesisError`, and the ambient constraint system's side effects
by explicit traces of the gadget calls / variable allocations performed.
The external cryptographic gadgets (Schnorr signature verification,
Merkle-path membership) are opaque collaborators of this core and are
modelled as abstract function parameters bundled in `Gadgets`.
-/

/-- Construction errors of the constraint system (`ark_relations`'s
`SynthesisError`), treated as an opaque enumeration. -/
inductive SynthesisError : Type where
  | assignmentMissing : SynthesisError
  | unsatisfiable : SynthesisError
  | otherError : Nat → SynthesisError
deriving DecidableEq

/-- Little-endian byte encoding of a natural number, `w` bytes wide. -/
def leBytes : Nat → Nat → List Nat
  | 0, _ => []
  | w + 1, n => n % 256 :: leBytes w (n / 256)

/-- Decode a little-endian byte list back to a natural number. -/
def fromLeBytes : List Nat → Nat
  | [] => 0
  | b :: bs => b + 256 * fromLeBytes bs

/-- Modelled from the spec: the byte width of an `AccountId`'s canonical
little-endian encoding (the account/ledger modules are not part of the
provided sources; the spec describes an opaque fixed-width identifier). -/
def idNumBytes : Nat := 1

/-- Modelled from the spec: the byte width of an `Amount`'s canonical
little-endian encoding (a bounded non-negative integer). -/
def amountNumBytes : Nat := 8

/-- Modelled from the spec: the byte width of a public key's canonical
encoding (a group element). -/
def pkNumBytes : Nat := 32

/-- Modelled from the spec: the exclusive upper bound of the bounded
`Amount` representation; checked arithmetic fails outside `[0, amountRange)`. -/
def amountRange : Nat := 2 ^ 64

/-- Modelled from the spec: the range of representable account ids, used by
the id field-allocation primitive. -/
def idRange : Nat := 2 ^ (8 * idNumBytes)

/-- Modelled from the spec: the range of representable signature values,
used by the signature field-allocation primitive. -/
def sigRange : Nat := 2 ^ 256

/-- Modelled from the spec: circuit variable holding an account id
(`AccountIdVar` of the account module, not in the provided sources). -/
structure AccountIdVar : Type where
  id : Nat
deriving DecidableEq

/-- Modelled from the spec: canonical little-endian byte serialization of an
account id. -/
def AccountIdVar.to_bytes_le (a : AccountIdVar) : List Nat :=
  leBytes idNumBytes a.id

/-- Modelled from the spec: circuit variable holding a bounded amount
(`AmountVar` of the ledger module, not in the provided sources). -/
structure AmountVar : Type where
  value : Nat
deriving DecidableEq

/-- Modelled from the spec: canonical little-endian byte serialization of an
amount. -/
def AmountVar.to_bytes_le (a : AmountVar) : List Nat :=
  leBytes amountNumBytes a.value

/-- Modelled from the spec: checked subtraction on bounded amounts, which
must fail (render the circuit unsatisfiable) on underflow rather than wrap
(`AmountVar::checked_sub` of the ledger module, not in the provided
sources). -/
def AmountVar.checked_sub (a b : AmountVar) : Except SynthesisError AmountVar :=
  if b.value ≤ a.value then Except.ok ⟨a.value - b.value⟩
  else Except.error SynthesisError.unsatisfiable

/-- Modelled from the spec: checked addition on bounded amounts, which must
fail (render the circuit unsatisfiable) on overflow of the bounded
representation rather than wrap (`AmountVar::checked_add` of the ledger
module, not in the provided sources). -/
def AmountVar.checked_add (a b : AmountVar) : Except SynthesisError AmountVar :=
  if a.value + b.value < amountRange then Except.ok ⟨a.value + b.value⟩
  else Except.error SynthesisError.unsatisfiable

/-- Modelled from the spec: circuit variable holding an account public key,
a group element consumed opaquely by this core. -/
structure AccountPublicKeyVar : Type where
  val : Nat
deriving DecidableEq

/-- Modelled from the spec: canonical byte serialization of a public key. -/
def AccountPublicKeyVar.to_bytes_le (pk : AccountPublicKeyVar) : List Nat :=
  leBytes pkNumBytes pk.val

/-- Modelled from the spec: circuit form of the account information leaf
`{ public_key, balance }` (the account module is not in the provided
sources). -/
structure AccountInformationVar : Type where
  public_key : AccountPublicKeyVar
  balance : AmountVar
deriving DecidableEq

/-- Modelled from the spec: serialization of an account-information leaf as
it is hashed into the Merkle tree: public key bytes then balance bytes. -/
def AccountInformationVar.to_bytes_le (a : AccountInformationVar) : List Nat :=
  a.public_key.to_bytes_le ++ a.balance.to_bytes_le

/-- Opaque Schnorr signature-scheme parameters variable. -/
structure SchnorrParamsVar : Type where
  val : Nat
deriving DecidableEq

/-- Opaque signature variable: allocated alongside the transaction, never
recomputed, only verified. -/
structure SignatureVar : Type where
  val : Nat
deriving DecidableEq

/-- Opaque collision-resistant-hash parameter variable (leaf hash or
two-to-one internal-node hash). -/
structure CrhParamsVar : Type where
  val : Nat
deriving DecidableEq

/-- Opaque Merkle authentication-path variable. -/
structure AccPathVar : Type where
  val : Nat
deriving DecidableEq

/-- Opaque Merkle-root digest variable. -/
structure AccRootVar : Type where
  digest : Nat
deriving DecidableEq

/-- Modelled from the spec: the ledger parameter bundle `ParametersVar`
(ledger module, not in the provided sources): signature-scheme parameters
and the two hash parameter sets, passed through and never mutated. -/
structure ParametersVar : Type where
  sig_params : SchnorrParamsVar
  leaf_crh_params : CrhParamsVar
  two_to_one_crh_params : CrhParamsVar
deriving DecidableEq

/-- The external gadget capabilities this core consumes, as abstract
functions: Schnorr signature verification over a byte message, and
Merkle-path membership verification of a serialized leaf against a root.
Each may fail with a construction error. -/
structure Gadgets : Type where
  schnorrVerify : SchnorrParamsVar → AccountPublicKeyVar → List Nat →
    SignatureVar → Except SynthesisError Bool
  verifyMembership : AccPathVar → CrhParamsVar → CrhParamsVar → AccRootVar →
    List Nat → Except SynthesisError Bool

/-- A record of one call made to an external gadget (the observable effect
of `validate` on the ambient constraint system, kept as an explicit trace). -/
inductive GadgetCall : Type where
  | schnorr : SchnorrParamsVar → AccountPublicKeyVar → List Nat →
      SignatureVar → GadgetCall
  | csub : AmountVar → AmountVar → GadgetCall
  | cadd : AmountVar → AmountVar → GadgetCall
  | membership : AccPathVar → AccountInformationVar → AccRootVar → GadgetCall
deriving DecidableEq

/-- Circuit form of a transaction: sender id, recipient id, amount and the
authorizing signature (`TransactionVar`). -/
structure TransactionVar : Type where
  sender : AccountIdVar
  recipient : AccountIdVar
  amount : AmountVar
  signature : SignatureVar
deriving DecidableEq

/-- `TransactionVar::verify_signature`: build the message as the
concatenation of the little-endian bytes of the sender id, the recipient id
and the amount, and hand it to the Schnorr verification gadget. Returns the
gadget's result together with the record of the call that was made. -/
def TransactionVar.verify_signature (self : TransactionVar) (G : Gadgets)
    (pp : SchnorrParamsVar) (pub_key : AccountPublicKeyVar) :
    Except SynthesisError Bool × GadgetCall :=
  let message := (self.sender.to_bytes_le ++ self.recipient.to_bytes_le) ++
    self.amount.to_bytes_le
  (G.schnorrVerify pp pub_key message self.signature,
   GadgetCall.schnorr pp pub_key message self.signature)

/-- `TransactionVar::check_account_existence`: verify the membership of the
serialized account-information leaf in the tree with the given root, under
the configured hash parameters. Returns the gadget's result together with
the record of the call (path, account information, root). -/
def TransactionVar.check_account_existence (self : TransactionVar)
    (G : Gadgets) (parameters : ParametersVar) (account_path : AccPathVar)
    (account : AccountInformationVar) (root : AccRootVar) :
    Except SynthesisError Bool × GadgetCall :=
  (G.verifyMembership account_path parameters.leaf_crh_params
      parameters.two_to_one_crh_params root account.to_bytes_le,
   GadgetCall.membership account_path account root)

/-- `TransactionVar::validate`: signature check, checked balance updates,
four membership checks, combined by conjunction; any construction error is
propagated immediately. The second component is the trace of gadget calls
actually performed (the effect on the ambient constraint system). -/
def TransactionVar.validate (self : TransactionVar) (G : Gadgets)
    (parameters : ParametersVar)
    (pre_sender_acc_info : AccountInformationVar)
    (pre_sender_path post_sender_path : AccPathVar)
    (pre_recipient_acc_info : AccountInformationVar)
    (pre_recipient_path post_recipient_path : AccPathVar)
    (pre_root post_root : AccRootVar) :
    Except SynthesisError Bool × List GadgetCall :=
  let s := self.verify_signature G parameters.sig_params
    pre_sender_acc_info.public_key
  match s.1 with
  | Except.error e => (Except.error e, [s.2])
  | Except.ok sig_verifies =>
    match pre_sender_acc_info.balance.checked_sub self.amount with
    | Except.error e =>
      (Except.error e,
       [s.2, GadgetCall.csub pre_sender_acc_info.balance self.amount])
    | Except.ok new_sender_balance =>
      let post_sender_acc_info :=
        { pre_sender_acc_info with balance := new_sender_balance }
      match pre_recipient_acc_info.balance.checked_add self.amount with
      | Except.error e =>
        (Except.error e,
         [s.2, GadgetCall.csub pre_sender_acc_info.balance self.amount,
          GadgetCall.cadd pre_recipient_acc_info.balance self.amount])
      | Except.ok new_recipient_balance =>
        let post_recipient_acc_info :=
          { pre_recipient_acc_info with balance := new_recipient_balance }
        let m1 := self.check_account_existence G parameters pre_sender_path
          pre_sender_acc_info pre_root
        match m1.1 with
        | Except.error e =>
          (Except.error e,
           [s.2, GadgetCall.csub pre_sender_acc_info.balance self.amount,
            GadgetCall.cadd pre_recipient_acc_info.balance self.amount, m1.2])
        | Except.ok sender_existed =>
          let m2 := self.check_account_existence G parameters post_sender_path
            post_sender_acc_info post_root
          match m2.1 with
          | Except.error e =>
            (Except.error e,
             [s.2, GadgetCall.csub pre_sender_acc_info.balance self.amount,
              GadgetCall.cadd pre_recipient_acc_info.balance self.amount,
              m1.2, m2.2])
          | Except.ok sender_will_exist =>
            let sender_exists := sender_existed && sender_will_exist
            let m3 := self.check_account_existence G parameters
              pre_recipient_path pre_recipient_acc_info pre_root
            match m3.1 with
            | Except.error e =>
              (Except.error e,
               [s.2, GadgetCall.csub pre_sender_acc_info.balance self.amount,
                GadgetCall.cadd pre_recipient_acc_info.balance self.amount,
                m1.2, m2.2, m3.2])
            | Except.ok recipient_existed =>
              let m4 := self.check_account_existence G parameters
                post_recipient_path post_recipient_acc_info post_root
              match m4.1 with
              | Except.error e =>
                (Except.error e,
                 [s.2, GadgetCall.csub pre_sender_acc_info.balance self.amount,
                  GadgetCall.cadd pre_recipient_acc_info.balance self.amount,
                  m1.2, m2.2, m3.2, m4.2])
              | Except.ok recipient_will_exist =>
                let recipient_exists := recipient_existed && recipient_will_exist
                (Except.ok ((sender_exists && recipient_exists) && sig_verifies),
                 [s.2, GadgetCall.csub pre_sender_acc_info.balance self.amount,
                  GadgetCall.cadd pre_recipient_acc_info.balance self.amount,
                  m1.2, m2.2, m3.2, m4.2])

/-- Modelled from the spec: the plain-data `Transaction` (defined in the
out-of-source `ark_simple_payments::transaction` module): sender id,
recipient id, amount and signature as plain values. -/
structure Transaction : Type where
  sender : Nat
  recipient : Nat
  amount : Nat
  signature : Nat
deriving DecidableEq

/-- The three circuit-variable allocation modes. -/
inductive AllocationMode : Type where
  | constant : AllocationMode
  | publicInput : AllocationMode
  | witnessMode : AllocationMode
deriving DecidableEq

/-- A variable registered with the constraint system by one of the
field-allocation primitives, recording the value and the mode used. -/
inductive AllocEvent : Type where
  | idAlloc : Nat → AllocationMode → AllocEvent
  | amountAlloc : Nat → AllocationMode → AllocEvent
  | sigAlloc : Nat → AllocationMode → AllocEvent
deriving DecidableEq

/-- Modelled from the spec: the account-id field-allocation primitive
(`AccountIdVar::new_variable`, account module not in the provided sources):
registers the variable with the ambient constraint system, failing exactly
when the value lies outside the representable range. -/
def AccountIdVar.new_variable (v : Nat) (mode : AllocationMode)
    (cs : List AllocEvent) : Except SynthesisError AccountIdVar × List AllocEvent :=
  if v < idRange then (Except.ok ⟨v⟩, cs ++ [AllocEvent.idAlloc v mode])
  else (Except.error SynthesisError.assignmentMissing, cs)

/-- Modelled from the spec: the amount field-allocation primitive
(`AmountVar::new_variable`, ledger module not in the provided sources). -/
def AmountVar.new_variable (v : Nat) (mode : AllocationMode)
    (cs : List AllocEvent) : Except SynthesisError AmountVar × List AllocEvent :=
  if v < amountRange then (Except.ok ⟨v⟩, cs ++ [AllocEvent.amountAlloc v mode])
  else (Except.error SynthesisError.assignmentMissing, cs)

/-- Modelled from the spec: the signature field-allocation primitive
(`SignatureVar::new_variable` of the external signature gadget). -/
def SignatureVar.new_variable (v : Nat) (mode : AllocationMode)
    (cs : List AllocEvent) : Except SynthesisError SignatureVar × List AllocEvent :=
  if v < sigRange then (Except.ok ⟨v⟩, cs ++ [AllocEvent.sigAlloc v mode])
  else (Except.error SynthesisError.assignmentMissing, cs)

/-- `TransactionVar::new_variable` (`AllocVar` implementation): evaluate the
value-producing closure (its result is the `f` argument here), then allocate
sender, recipient, amount and signature in that order, all with the same
mode, propagating the first error. The second component is the updated
constraint-system allocation trace. -/
def TransactionVar.new_variable (cs : List AllocEvent)
    (f : Except SynthesisError Transaction) (mode : AllocationMode) :
    Except SynthesisError TransactionVar × List AllocEvent :=
  match f with
  | Except.error e => (Except.error e, cs)
  | Except.ok tx =>
    match AccountIdVar.new_variable tx.sender mode cs with
    | (Except.error e, cs1) => (Except.error e, cs1)
    | (Except.ok sender, cs1) =>
      match AccountIdVar.new_variable tx.recipient mode cs1 with
      | (Except.error e, cs2) => (Except.error e, cs2)
      | (Except.ok recipient, cs2) =>
        match AmountVar.new_variable tx.amount mode cs2 with
        | (Except.error e, cs3) => (Except.error e, cs3)
        | (Except.ok amount, cs3) =>
          match SignatureVar.new_variable tx.signature mode cs3 with
          | (Except.error e, cs4) => (Except.error e, cs4)
          | (Except.ok signature, cs4) =>
            (Except.ok ⟨sender, recipient, amount, signature⟩, cs4)

/-! ### Byte-encoding lemmas -/

theorem leBytes_length (w n : Nat) : (leBytes w n).length = w := by
  induction w generalizing n with
  | zero => rfl
  | succ w ih => simp [leBytes, ih]

theorem fromLeBytes_leBytes (w n : Nat) :
    fromLeBytes (leBytes w n) = n % 256 ^ w := by
  induction w generalizing n with
  | zero => simp [leBytes, fromLeBytes, Nat.mod_one]
  | succ w ih =>
    rw [leBytes, fromLeBytes, ih, pow_succ', Nat.mod_mul]

theorem leBytes_mem_lt (w n : Nat) : ∀ b ∈ leBytes w n, b < 256 := by
  induction w generalizing n with
  | zero => intro b hb; simp [leBytes] at hb
  | succ w ih =>
    intro b hb
    rcases List.mem_cons.mp hb with h | h
    · exact h ▸ Nat.mod_lt _ (by norm_num)
    · exact ih _ b h

/-! ### C1: the signed message -/

/-- C1: the message whose signature `verify_signature` checks is exactly the
byte-concatenation of the little-endian canonical encodings of the sender
id, then the recipient id, then the amount — in that order and nothing else
(its length is exactly the three widths, each segment decodes back to the
corresponding field, and the message is identical for every public key, so
no public-key bytes are included). -/
theorem verify_signature_message_exact (G : Gadgets) (pp : SchnorrParamsVar)
    (pk pk2 : AccountPublicKeyVar) (tx : TransactionVar) :
    ∃ m : List Nat,
      (tx.verify_signature G pp pk).2 = GadgetCall.schnorr pp pk m tx.signature ∧
      (tx.verify_signature G pp pk).1 = G.schnorrVerify pp pk m tx.signature ∧
      (tx.verify_signature G pp pk2).2 = GadgetCall.schnorr pp pk2 m tx.signature ∧
      m.length = idNumBytes + idNumBytes + amountNumBytes ∧
      (∀ b ∈ m, b < 256) ∧
      m.take idNumBytes = tx.sender.to_bytes_le ∧
      (m.drop idNumBytes).take idNumBytes = tx.recipient.to_bytes_le ∧
      m.drop (idNumBytes + idNumBytes) = tx.amount.to_bytes_le ∧
      fromLeBytes (m.take idNumBytes) = tx.sender.id % 256 ^ idNumBytes ∧
      fromLeBytes ((m.drop idNumBytes).take idNumBytes) =
        tx.recipient.id % 256 ^ idNumBytes ∧
      fromLeBytes (m.drop (idNumBytes + idNumBytes)) =
        tx.amount.value % 256 ^ amountNumBytes := by
  have hs : (tx.sender.to_bytes_le).length = idNumBytes := by
    simp [AccountIdVar.to_bytes_le, leBytes_length]
  have hr : (tx.recipient.to_bytes_le).length = idNumBytes := by
    simp [AccountIdVar.to_bytes_le, leBytes_length]
  have hsr : (tx.sender.to_bytes_le ++ tx.recipient.to_bytes_le).length =
      idNumBytes + idNumBytes := by
    simp [List.length_append, hs, hr]
  have htake : ((tx.sender.to_bytes_le ++ tx.recipient.to_bytes_le) ++
      tx.amount.to_bytes_le).take idNumBytes = tx.sender.to_bytes_le := by
    rw [List.append_assoc]; exact List.take_left' hs
  have hdrop1 : ((tx.sender.to_bytes_le ++ tx.recipient.to_bytes_le) ++
      tx.amount.to_bytes_le).drop idNumBytes =
      tx.recipient.to_bytes_le ++ tx.amount.to_bytes_le := by
    rw [List.append_assoc]; exact List.drop_left' hs
  have htake2 : (((tx.sender.to_bytes_le ++ tx.recipient.to_bytes_le) ++
      tx.amount.to_bytes_le).drop idNumBytes).take idNumBytes =
      tx.recipient.to_bytes_le := by
    rw [hdrop1]; exact List.take_left' hr
  have hdrop2 : ((tx.sender.to_bytes_le ++ tx.recipient.to_bytes_le) ++
      tx.amount.to_bytes_le).drop (idNumBytes + idNumBytes) =
      tx.amount.to_bytes_le := by
    exact List.drop_left' hsr
  refine ⟨(tx.sender.to_bytes_le ++ tx.recipient.to_bytes_le) ++
    tx.amount.to_bytes_le, rfl, rfl, rfl, ?_, ?_, htake, htake2, hdrop2,
    ?_, ?_, ?_⟩
  · simp [List.length_append, hs, hr, AmountVar.to_bytes_le, leBytes_length,
      Nat.add_assoc]
  · intro b hb
    simp only [List.mem_append] at hb
    rcases hb with (hb | hb) | hb
    · exact leBytes_mem_lt _ _ b hb
    · exact leBytes_mem_lt _ _ b hb
    · exact leBytes_mem_lt _ _ b hb
  · rw [htake]; exact fromLeBytes_leBytes _ _
  · rw [htake2]; exact fromLeBytes_leBytes _ _
  · rw [hdrop2]; exact fromLeBytes_leBytes _ _

/-! ### Helper lemmas on the success path of validate -/

theorem validate_ok_eval (tx : TransactionVar) (G : Gadgets) (P : ParametersVar)
    (preS : AccountInformationVar) (preSPath postSPath : AccPathVar)
    (preR : AccountInformationVar) (preRPath postRPath : AccPathVar)
    (preRoot postRoot : AccRootVar) (sv : Bool) (sb rb : AmountVar)
    (b1 b2 b3 b4 : Bool)
    (hs : (tx.verify_signature G P.sig_params preS.public_key).1 = Except.ok sv)
    (hsub : preS.balance.checked_sub tx.amount = Except.ok sb)
    (hadd : preR.balance.checked_add tx.amount = Except.ok rb)
    (h1 : (tx.check_account_existence G P preSPath preS preRoot).1 =
      Except.ok b1)
    (h2 : (tx.check_account_existence G P postSPath ⟨preS.public_key, sb⟩
      postRoot).1 = Except.ok b2)
    (h3 : (tx.check_account_existence G P preRPath preR preRoot).1 =
      Except.ok b3)
    (h4 : (tx.check_account_existence G P postRPath ⟨preR.public_key, rb⟩
      postRoot).1 = Except.ok b4) :
    tx.validate G P preS preSPath postSPath preR preRPath postRPath
      preRoot postRoot =
      (Except.ok (((b1 && b2) && (b3 && b4)) && sv),
       [(tx.verify_signature G P.sig_params preS.public_key).2,
        GadgetCall.csub preS.balance tx.amount,
        GadgetCall.cadd preR.balance tx.amount,
        GadgetCall.membership preSPath preS preRoot,
        GadgetCall.membership postSPath ⟨preS.public_key, sb⟩ postRoot,
        GadgetCall.membership preRPath preR preRoot,
        GadgetCall.membership postRPath ⟨preR.public_key, rb⟩ postRoot]) := by
  have hm1 : G.verifyMembership preSPath P.leaf_crh_params
      P.two_to_one_crh_params preRoot preS.to_bytes_le = Except.ok b1 := h1
  have hm2 : G.verifyMembership postSPath P.leaf_crh_params
      P.two_to_one_crh_params postRoot
      (AccountInformationVar.mk preS.public_key sb).to_bytes_le =
      Except.ok b2 := h2
  have hm3 : G.verifyMembership preRPath P.leaf_crh_params
      P.two_to_one_crh_params preRoot preR.to_bytes_le = Except.ok b3 := h3
  have hm4 : G.verifyMembership postRPath P.leaf_crh_params
      P.two_to_one_crh_params postRoot
      (AccountInformationVar.mk preR.public_key rb).to_bytes_le =
      Except.ok b4 := h4
  simp only [TransactionVar.validate, TransactionVar.check_account_existence,
    hs, hsub, hadd, hm1, hm2, hm3, hm4]

theorem validate_ok_cases (tx : TransactionVar) (G : Gadgets)
    (P : ParametersVar) (preS : AccountInformationVar)
    (preSPath postSPath : AccPathVar) (preR : AccountInformationVar)
    (preRPath postRPath : AccPathVar) (preRoot postRoot : AccRootVar)
    (b : Bool)
    (h : (tx.validate G P preS preSPath postSPath preR preRPath postRPath
      preRoot postRoot).1 = Except.ok b) :
    ∃ (sv : Bool) (sb rb : AmountVar) (b1 b2 b3 b4 : Bool),
      (tx.verify_signature G P.sig_params preS.public_key).1 = Except.ok sv ∧
      preS.balance.checked_sub tx.amount = Except.ok sb ∧
      preR.balance.checked_add tx.amount = Except.ok rb ∧
      (tx.check_account_existence G P preSPath preS preRoot).1 =
        Except.ok b1 ∧
      (tx.check_account_existence G P postSPath ⟨preS.public_key, sb⟩
        postRoot).1 = Except.ok b2 ∧
      (tx.check_account_existence G P preRPath preR preRoot).1 =
        Except.ok b3 ∧
      (tx.check_account_existence G P postRPath ⟨preR.public_key, rb⟩
        postRoot).1 = Except.ok b4 ∧
      b = (((b1 && b2) && (b3 && b4)) && sv) := by
  simp only [TransactionVar.validate, TransactionVar.check_account_existence]
    at h
  split at h
  next e hs => simp at h
  next sv hs =>
    split at h
    next e hsub => simp at h
    next sb hsub =>
      split at h
      next e hadd => simp at h
      next rb hadd =>
        split at h
        next e h1 => simp at h
        next b1 h1 =>
          split at h
          next e h2 => simp at h
          next b2 h2 =>
            split at h
            next e h3 => simp at h
            next b3 h3 =>
              split at h
              next e h4 => simp at h
              next b4 h4 =>
                simp only [Except.ok.injEq] at h
                exact ⟨sv, sb, rb, b1, b2, b3, b4, hs, hsub, hadd, h1, h2,
                  h3, h4, h.symm⟩

/-! ### C2: the result structure of validate -/

/-- C2: whenever `validate` returns `Ok b`, the boolean `b` equals
((sender pre-membership AND sender post-membership) AND (recipient
pre-membership AND recipient post-membership)) AND signature-validity, and
the trace of gadget calls shows the membership check invoked exactly four
times, once with each of the four (path, account information, root)
triples: (pre-sender-path, pre-sender-info, pre-root),
(post-sender-path, derived post-sender-info, post-root),
(pre-recipient-path, pre-recipient-info, pre-root) and
(post-recipient-path, derived post-recipient-info, post-root). -/
theorem validate_ok_result_and_calls (tx : TransactionVar) (G : Gadgets)
    (P : ParametersVar) (preS : AccountInformationVar)
    (preSPath postSPath : AccPathVar) (preR : AccountInformationVar)
    (preRPath postRPath : AccPathVar) (preRoot postRoot : AccRootVar)
    (b : Bool)
    (h : (tx.validate G P preS preSPath postSPath preR preRPath postRPath
      preRoot postRoot).1 = Except.ok b) :
    ∃ (sv : Bool) (sb rb : AmountVar) (b1 b2 b3 b4 : Bool),
      (tx.verify_signature G P.sig_params preS.public_key).1 = Except.ok sv ∧
      preS.balance.checked_sub tx.amount = Except.ok sb ∧
      preR.balance.checked_add tx.amount = Except.ok rb ∧
      (tx.check_account_existence G P preSPath preS preRoot).1 =
        Except.ok b1 ∧
      (tx.check_account_existence G P postSPath ⟨preS.public_key, sb⟩
        postRoot).1 = Except.ok b2 ∧
      (tx.check_account_existence G P preRPath preR preRoot).1 =
        Except.ok b3 ∧
      (tx.check_account_existence G P postRPath ⟨preR.public_key, rb⟩
        postRoot).1 = Except.ok b4 ∧
      b = (((b1 && b2) && (b3 && b4)) && sv) ∧
      (tx.validate G P preS preSPath postSPath preR preRPath postRPath
        preRoot postRoot).2 =
        [(tx.verify_signature G P.sig_params preS.public_key).2,
         GadgetCall.csub preS.balance tx.amount,
         GadgetCall.cadd preR.balance tx.amount,
         GadgetCall.membership preSPath preS preRoot,
         GadgetCall.membership postSPath ⟨preS.public_key, sb⟩ postRoot,
         GadgetCall.membership preRPath preR preRoot,
         GadgetCall.membership postRPath ⟨preR.public_key, rb⟩ postRoot] := by
  obtain ⟨sv, sb, rb, b1, b2, b3, b4, hs, hsub, hadd, h1, h2, h3, h4, hb⟩ :=
    validate_ok_cases tx G P preS preSPath postSPath preR preRPath postRPath
      preRoot postRoot b h
  refine ⟨sv, sb, rb, b1, b2, b3, b4, hs, hsub, hadd, h1, h2, h3, h4, hb, ?_⟩
  have heval := validate_ok_eval tx G P preS preSPath postSPath preR preRPath
    postRPath preRoot postRoot sv sb rb b1 b2 b3 b4 hs hsub hadd h1 h2 h3 h4
  rw [heval]

/-- Witness for C2: a concrete run of `validate` returning `Ok true`, with
the structure theorem instantiated on it. -/
theorem validate_ok_result_and_calls_witness :
    ∃ (sv : Bool) (sb rb : AmountVar) (b1 b2 b3 b4 : Bool),
      (TransactionVar.verify_signature ⟨⟨1⟩, ⟨2⟩, ⟨30⟩, ⟨7⟩⟩
        ⟨fun _ _ _ _ => Except.ok true, fun _ _ _ _ _ => Except.ok true⟩
        ⟨0⟩ ⟨5⟩).1 = Except.ok sv ∧
      AmountVar.checked_sub ⟨100⟩ ⟨30⟩ = Except.ok sb ∧
      AmountVar.checked_add ⟨10⟩ ⟨30⟩ = Except.ok rb ∧
      (TransactionVar.check_account_existence ⟨⟨1⟩, ⟨2⟩, ⟨30⟩, ⟨7⟩⟩
        ⟨fun _ _ _ _ => Except.ok true, fun _ _ _ _ _ => Except.ok true⟩
        ⟨⟨0⟩, ⟨1⟩, ⟨2⟩⟩ ⟨1⟩ ⟨⟨5⟩, ⟨100⟩⟩ ⟨11⟩).1 = Except.ok b1 ∧
      (TransactionVar.check_account_existence ⟨⟨1⟩, ⟨2⟩, ⟨30⟩, ⟨7⟩⟩
        ⟨fun _ _ _ _ => Except.ok true, fun _ _ _ _ _ => Except.ok true⟩
        ⟨⟨0⟩, ⟨1⟩, ⟨2⟩⟩ ⟨2⟩ ⟨⟨5⟩, sb⟩ ⟨12⟩).1 = Except.ok b2 ∧
      (TransactionVar.check_account_existence ⟨⟨1⟩, ⟨2⟩, ⟨30⟩, ⟨7⟩⟩
        ⟨fun _ _ _ _ => Except.ok true, fun _ _ _ _ _ => Except.ok true⟩
        ⟨⟨0⟩, ⟨1⟩, ⟨2⟩⟩ ⟨3⟩ ⟨⟨6⟩, ⟨10⟩⟩ ⟨11⟩).1 = Except.ok b3 ∧
      (TransactionVar.check_account_existence ⟨⟨1⟩, ⟨2⟩, ⟨30⟩, ⟨7⟩⟩
        ⟨fun _ _ _ _ => Except.ok true, fun _ _ _ _ _ => Except.ok true⟩
        ⟨⟨0⟩, ⟨1⟩, ⟨2⟩⟩ ⟨4⟩ ⟨⟨6⟩, rb⟩ ⟨12⟩).1 = Except.ok b4 ∧
      true = (((b1 && b2) && (b3 && b4)) && sv) ∧
      (TransactionVar.validate ⟨⟨1⟩, ⟨2⟩, ⟨30⟩, ⟨7⟩⟩
        ⟨fun _ _ _ _ => Except.ok true, fun _ _ _ _ _ => Except.ok true⟩
        ⟨⟨0⟩, ⟨1⟩, ⟨2⟩⟩ ⟨⟨5⟩, ⟨100⟩⟩ ⟨1⟩ ⟨2⟩ ⟨⟨6⟩, ⟨10⟩⟩ ⟨3⟩ ⟨4⟩
        ⟨11⟩ ⟨12⟩).2 =
        [(TransactionVar.verify_signature ⟨⟨1⟩, ⟨2⟩, ⟨30⟩, ⟨7⟩⟩
           ⟨fun _ _ _ _ => Except.ok true, fun _ _ _ _ _ => Except.ok true⟩
           ⟨0⟩ ⟨5⟩).2,
         GadgetCall.csub ⟨100⟩ ⟨30⟩,
         GadgetCall.cadd ⟨10⟩ ⟨30⟩,
         GadgetCall.membership ⟨1⟩ ⟨⟨5⟩, ⟨100⟩⟩ ⟨11⟩,
         GadgetCall.membership ⟨2⟩ ⟨⟨5⟩, sb⟩ ⟨12⟩,
         GadgetCall.membership ⟨3⟩ ⟨⟨6⟩, ⟨10⟩⟩ ⟨11⟩,
         GadgetCall.membership ⟨4⟩ ⟨⟨6⟩, rb⟩ ⟨12⟩] :=
  validate_ok_result_and_calls ⟨⟨1⟩, ⟨2⟩, ⟨30⟩, ⟨7⟩⟩
    ⟨fun _ _ _ _ => Except.ok true, fun _ _ _ _ _ => Except.ok true⟩
    ⟨⟨0⟩, ⟨1⟩, ⟨2⟩⟩ ⟨⟨5⟩, ⟨100⟩⟩ ⟨1⟩ ⟨2⟩ ⟨⟨6⟩, ⟨10⟩⟩ ⟨3⟩ ⟨4⟩ ⟨11⟩ ⟨12⟩
    true (by rfl)

/-! ### C3: checked subtraction / addition -/

/-- C3: in `validate` the post-sender balance is the pre-sender balance
minus the amount by checked subtraction and the post-recipient balance is
the pre-recipient balance plus the amount by checked addition; whenever the
amount exceeds the pre-sender balance, or the recipient's post-balance
overflows the bounded amount representation, the checked operation makes
the whole run fail as unsatisfiable instead of wrapping. Boundary:
amount = balance is allowed by checked subtraction, amount = balance + 1 is
rejected. -/
theorem validate_checked_arithmetic (tx : TransactionVar) (G : Gadgets)
    (P : ParametersVar) (preS : AccountInformationVar)
    (preSPath postSPath : AccPathVar) (preR : AccountInformationVar)
    (preRPath postRPath : AccPathVar) (preRoot postRoot : AccRootVar)
    (sv : Bool)
    (hs : (tx.verify_signature G P.sig_params preS.public_key).1 =
      Except.ok sv) :
    (preS.balance.value < tx.amount.value →
      (tx.validate G P preS preSPath postSPath preR preRPath postRPath
        preRoot postRoot).1 = Except.error SynthesisError.unsatisfiable) ∧
    (tx.amount.value ≤ preS.balance.value →
      preS.balance.checked_sub tx.amount =
        Except.ok ⟨preS.balance.value - tx.amount.value⟩) ∧
    (tx.amount.value ≤ preS.balance.value →
      amountRange ≤ preR.balance.value + tx.amount.value →
      (tx.validate G P preS preSPath postSPath preR preRPath postRPath
        preRoot postRoot).1 = Except.error SynthesisError.unsatisfiable) ∧
    (preR.balance.value + tx.amount.value < amountRange →
      preR.balance.checked_add tx.amount =
        Except.ok ⟨preR.balance.value + tx.amount.value⟩) ∧
    preS.balance.checked_sub preS.balance = Except.ok ⟨0⟩ ∧
    AmountVar.checked_sub preS.balance ⟨preS.balance.value + 1⟩ =
      Except.error SynthesisError.unsatisfiable := by
  refine ⟨?_, ?_, ?_, ?_, ?_, ?_⟩
  · intro hlt
    have hsub : preS.balance.checked_sub tx.amount =
        Except.error SynthesisError.unsatisfiable := by
      simp only [AmountVar.checked_sub]
      rw [if_neg (by omega)]
    simp only [TransactionVar.validate, hs, hsub]
  · intro hle
    simp only [AmountVar.checked_sub]
    rw [if_pos hle]
  · intro hle hof
    have hsub : preS.balance.checked_sub tx.amount =
        Except.ok ⟨preS.balance.value - tx.amount.value⟩ := by
      simp only [AmountVar.checked_sub]
      rw [if_pos hle]
    have hadd : preR.balance.checked_add tx.amount =
        Except.error SynthesisError.unsatisfiable := by
      simp only [AmountVar.checked_add]
      rw [if_neg (by omega)]
    simp only [TransactionVar.validate, hs, hsub, hadd]
  · intro hof
    simp only [AmountVar.checked_add]
    rw [if_pos hof]
  · simp [AmountVar.checked_sub]
  · simp only [AmountVar.checked_sub]
    rw [if_neg (by omega)]

/-- Witness for C3: concrete run with balance 100 and amount 101, where the
checked subtraction renders validation unsatisfiable. -/
theorem validate_checked_arithmetic_witness :
    (100 < 101 →
      (TransactionVar.validate ⟨⟨1⟩, ⟨2⟩, ⟨101⟩, ⟨7⟩⟩
        ⟨fun _ _ _ _ => Except.ok true, fun _ _ _ _ _ => Except.ok true⟩
        ⟨⟨0⟩, ⟨1⟩, ⟨2⟩⟩ ⟨⟨5⟩, ⟨100⟩⟩ ⟨1⟩ ⟨2⟩ ⟨⟨6⟩, ⟨10⟩⟩ ⟨3⟩ ⟨4⟩
        ⟨11⟩ ⟨12⟩).1 = Except.error SynthesisError.unsatisfiable) ∧
    (101 ≤ 100 →
      AmountVar.checked_sub ⟨100⟩ ⟨101⟩ = Except.ok ⟨100 - 101⟩) ∧
    (101 ≤ 100 → amountRange ≤ 10 + 101 →
      (TransactionVar.validate ⟨⟨1⟩, ⟨2⟩, ⟨101⟩, ⟨7⟩⟩
        ⟨fun _ _ _ _ => Except.ok true, fun _ _ _ _ _ => Except.ok true⟩
        ⟨⟨0⟩, ⟨1⟩, ⟨2⟩⟩ ⟨⟨5⟩, ⟨100⟩⟩ ⟨1⟩ ⟨2⟩ ⟨⟨6⟩, ⟨10⟩⟩ ⟨3⟩ ⟨4⟩
        ⟨11⟩ ⟨12⟩).1 = Except.error SynthesisError.unsatisfiable) ∧
    (10 + 101 < amountRange →
      AmountVar.checked_add ⟨10⟩ ⟨101⟩ = Except.ok ⟨10 + 101⟩) ∧
    AmountVar.checked_sub ⟨100⟩ ⟨100⟩ = Except.ok ⟨0⟩ ∧
    AmountVar.checked_sub ⟨100⟩ ⟨100 + 1⟩ =
      Except.error SynthesisError.unsatisfiable :=
  validate_checked_arithmetic ⟨⟨1⟩, ⟨2⟩, ⟨101⟩, ⟨7⟩⟩
    ⟨fun _ _ _ _ => Except.ok true, fun _ _ _ _ _ => Except.ok true⟩
    ⟨⟨0⟩, ⟨1⟩, ⟨2⟩⟩ ⟨⟨5⟩, ⟨100⟩⟩ ⟨1⟩ ⟨2⟩ ⟨⟨6⟩, ⟨10⟩⟩ ⟨3⟩ ⟨4⟩ ⟨11⟩ ⟨12⟩
    true (by rfl)

/-! ### C4: invalid signature degrades to the boolean false -/

/-- C4: when the signature gadget reports an invalid signature (boolean
false, not an error) and the rest of the circuit construction succeeds,
`verify_signature` and hence `validate` return `Ok` carrying `false`; an
invalid signature never surfaces as an `Err` from `validate`. -/
theorem validate_invalid_signature_ok_false (tx : TransactionVar)
    (G : Gadgets) (P : ParametersVar) (preS : AccountInformationVar)
    (preSPath postSPath : AccPathVar) (preR : AccountInformationVar)
    (preRPath postRPath : AccPathVar) (preRoot postRoot : AccRootVar)
    (sb rb : AmountVar) (b1 b2 b3 b4 : Bool)
    (hs : (tx.verify_signature G P.sig_params preS.public_key).1 =
      Except.ok false)
    (hsub : preS.balance.checked_sub tx.amount = Except.ok sb)
    (hadd : preR.balance.checked_add tx.amount = Except.ok rb)
    (h1 : (tx.check_account_existence G P preSPath preS preRoot).1 =
      Except.ok b1)
    (h2 : (tx.check_account_existence G P postSPath ⟨preS.public_key, sb⟩
      postRoot).1 = Except.ok b2)
    (h3 : (tx.check_account_existence G P preRPath preR preRoot).1 =
      Except.ok b3)
    (h4 : (tx.check_account_existence G P postRPath ⟨preR.public_key, rb⟩
      postRoot).1 = Except.ok b4) :
    (tx.verify_signature G P.sig_params preS.public_key).1 =
      Except.ok false ∧
    (tx.validate G P preS preSPath postSPath preR preRPath postRPath
      preRoot postRoot).1 = Except.ok false := by
  refine ⟨hs, ?_⟩
  have heval := validate_ok_eval tx G P preS preSPath postSPath preR preRPath
    postRPath preRoot postRoot false sb rb b1 b2 b3 b4 hs hsub hadd h1 h2 h3
    h4
  rw [heval]
  simp [Bool.and_false]

/-- Witness for C4: a concrete signature-gadget refusal (result `Ok false`)
propagating to `validate` as `Ok false`. -/
theorem validate_invalid_signature_ok_false_witness :
    (TransactionVar.verify_signature ⟨⟨1⟩, ⟨2⟩, ⟨30⟩, ⟨7⟩⟩
      ⟨fun _ _ _ _ => Except.ok false, fun _ _ _ _ _ => Except.ok true⟩
      ⟨0⟩ ⟨5⟩).1 = Except.ok false ∧
    (TransactionVar.validate ⟨⟨1⟩, ⟨2⟩, ⟨30⟩, ⟨7⟩⟩
      ⟨fun _ _ _ _ => Except.ok false, fun _ _ _ _ _ => Except.ok true⟩
      ⟨⟨0⟩, ⟨1⟩, ⟨2⟩⟩ ⟨⟨5⟩, ⟨100⟩⟩ ⟨1⟩ ⟨2⟩ ⟨⟨6⟩, ⟨10⟩⟩ ⟨3⟩ ⟨4⟩
      ⟨11⟩ ⟨12⟩).1 = Except.ok false :=
  validate_invalid_signature_ok_false ⟨⟨1⟩, ⟨2⟩, ⟨30⟩, ⟨7⟩⟩
    ⟨fun _ _ _ _ => Except.ok false, fun _ _ _ _ _ => Except.ok true⟩
    ⟨⟨0⟩, ⟨1⟩, ⟨2⟩⟩ ⟨⟨5⟩, ⟨100⟩⟩ ⟨1⟩ ⟨2⟩ ⟨⟨6⟩, ⟨10⟩⟩ ⟨3⟩ ⟨4⟩ ⟨11⟩ ⟨12⟩
    ⟨70⟩ ⟨40⟩ true true true true (by rfl) (by rfl) (by rfl) (by rfl)
    (by rfl) (by rfl) (by rfl)

/-! ### C6: the derived post-state account informations -/

/-- C6: on a successful run of `validate`, the derived post-sender and
post-recipient account informations differ from the supplied pre-state
informations only in the balance field (the public key — the only other
field of an account information — is carried over unchanged), and the
pre-state informations are passed to the pre-root membership checks
unchanged. -/
theorem validate_post_infos_frame (tx : TransactionVar) (G : Gadgets)
    (P : ParametersVar) (preS : AccountInformationVar)
    (preSPath postSPath : AccPathVar) (preR : AccountInformationVar)
    (preRPath postRPath : AccPathVar) (preRoot postRoot : AccRootVar)
    (b : Bool)
    (h : (tx.validate G P preS preSPath postSPath preR preRPath postRPath
      preRoot postRoot).1 = Except.ok b) :
    ∃ (sb rb : AmountVar) (postS postR : AccountInformationVar),
      preS.balance.checked_sub tx.amount = Except.ok sb ∧
      preR.balance.checked_add tx.amount = Except.ok rb ∧
      postS.public_key = preS.public_key ∧ postS.balance = sb ∧
      postR.public_key = preR.public_key ∧ postR.balance = rb ∧
      (tx.validate G P preS preSPath postSPath preR preRPath postRPath
        preRoot postRoot).2 =
        [(tx.verify_signature G P.sig_params preS.public_key).2,
         GadgetCall.csub preS.balance tx.amount,
         GadgetCall.cadd preR.balance tx.amount,
         GadgetCall.membership preSPath preS preRoot,
         GadgetCall.membership postSPath postS postRoot,
         GadgetCall.membership preRPath preR preRoot,
         GadgetCall.membership postRPath postR postRoot] := by
  obtain ⟨sv, sb, rb, b1, b2, b3, b4, hs, hsub, hadd, h1, h2, h3, h4, hb⟩ :=
    validate_ok_cases tx G P preS preSPath postSPath preR preRPath postRPath
      preRoot postRoot b h
  refine ⟨sb, rb, ⟨preS.public_key, sb⟩, ⟨preR.public_key, rb⟩, hsub, hadd,
    rfl, rfl, rfl, rfl, ?_⟩
  have heval := validate_ok_eval tx G P preS preSPath postSPath preR preRPath
    postRPath preRoot postRoot sv sb rb b1 b2 b3 b4 hs hsub hadd h1 h2 h3 h4
  rw [heval]

/-- Witness for C6: the frame property instantiated on a concrete
successful run. -/
theorem validate_post_infos_frame_witness :
    ∃ (sb rb : AmountVar) (postS postR : AccountInformationVar),
      AmountVar.checked_sub ⟨100⟩ ⟨30⟩ = Except.ok sb ∧
      AmountVar.checked_add ⟨10⟩ ⟨30⟩ = Except.ok rb ∧
      postS.public_key = AccountPublicKeyVar.mk 5 ∧ postS.balance = sb ∧
      postR.public_key = AccountPublicKeyVar.mk 6 ∧ postR.balance = rb ∧
      (TransactionVar.validate ⟨⟨1⟩, ⟨2⟩, ⟨30⟩, ⟨7⟩⟩
        ⟨fun _ _ _ _ => Except.ok true, fun _ _ _ _ _ => Except.ok true⟩
        ⟨⟨0⟩, ⟨1⟩, ⟨2⟩⟩ ⟨⟨5⟩, ⟨100⟩⟩ ⟨1⟩ ⟨2⟩ ⟨⟨6⟩, ⟨10⟩⟩ ⟨3⟩ ⟨4⟩
        ⟨11⟩ ⟨12⟩).2 =
        [(TransactionVar.verify_signature ⟨⟨1⟩, ⟨2⟩, ⟨30⟩, ⟨7⟩⟩
           ⟨fun _ _ _ _ => Except.ok true, fun _ _ _ _ _ => Except.ok true⟩
           ⟨0⟩ ⟨5⟩).2,
         GadgetCall.csub ⟨100⟩ ⟨30⟩,
         GadgetCall.cadd ⟨10⟩ ⟨30⟩,
         GadgetCall.membership ⟨1⟩ ⟨⟨5⟩, ⟨100⟩⟩ ⟨11⟩,
         GadgetCall.membership ⟨2⟩ postS ⟨12⟩,
         GadgetCall.membership ⟨3⟩ ⟨⟨6⟩, ⟨10⟩⟩ ⟨11⟩,
         GadgetCall.membership ⟨4⟩ postR ⟨12⟩] :=
  validate_post_infos_frame ⟨⟨1⟩, ⟨2⟩, ⟨30⟩, ⟨7⟩⟩
    ⟨fun _ _ _ _ => Except.ok true, fun _ _ _ _ _ => Except.ok true⟩
    ⟨⟨0⟩, ⟨1⟩, ⟨2⟩⟩ ⟨⟨5⟩, ⟨100⟩⟩ ⟨1⟩ ⟨2⟩ ⟨⟨6⟩, ⟨10⟩⟩ ⟨3⟩ ⟨4⟩ ⟨11⟩ ⟨12⟩
    true (by rfl)

/-! ### C7: self-transfer and zero amount are not rejected -/

/-- C7: `validate` imposes no sender-not-equal-recipient constraint and no
nonzero-amount constraint: a concrete run with sender = recipient returns a
true predicate, and so does a concrete run with amount = 0, when signature,
balances and Merkle paths are otherwise consistent. -/
theorem validate_allows_self_transfer_and_zero_amount :
    TransactionVar.sender ⟨⟨1⟩, ⟨1⟩, ⟨30⟩, ⟨7⟩⟩ =
      TransactionVar.recipient ⟨⟨1⟩, ⟨1⟩, ⟨30⟩, ⟨7⟩⟩ ∧
    (TransactionVar.validate ⟨⟨1⟩, ⟨1⟩, ⟨30⟩, ⟨7⟩⟩
      ⟨fun _ _ _ _ => Except.ok true, fun _ _ _ _ _ => Except.ok true⟩
      ⟨⟨0⟩, ⟨1⟩, ⟨2⟩⟩ ⟨⟨5⟩, ⟨100⟩⟩ ⟨1⟩ ⟨2⟩ ⟨⟨5⟩, ⟨100⟩⟩ ⟨1⟩ ⟨2⟩
      ⟨11⟩ ⟨12⟩).1 = Except.ok true ∧
    AmountVar.value (TransactionVar.amount ⟨⟨1⟩, ⟨2⟩, ⟨0⟩, ⟨7⟩⟩) = 0 ∧
    (TransactionVar.validate ⟨⟨1⟩, ⟨2⟩, ⟨0⟩, ⟨7⟩⟩
      ⟨fun _ _ _ _ => Except.ok true, fun _ _ _ _ _ => Except.ok true⟩
      ⟨⟨0⟩, ⟨1⟩, ⟨2⟩⟩ ⟨⟨5⟩, ⟨100⟩⟩ ⟨1⟩ ⟨2⟩ ⟨⟨6⟩, ⟨10⟩⟩ ⟨3⟩ ⟨4⟩
      ⟨11⟩ ⟨12⟩).1 = Except.ok true :=
  ⟨rfl, by rfl, rfl, by rfl⟩

/-! ### C8: determinism of validate -/

/-- C8: `validate` is deterministic: two calls on the same `TransactionVar`
with componentwise identical parameters, account informations, paths and
roots produce identical results — the outcome depends only on the explicit
inputs (the embedding carries no hidden mutable state). -/
theorem validate_deterministic (tx : TransactionVar) (G : Gadgets)
    (P Q : ParametersVar) (preS preS2 : AccountInformationVar)
    (preSPath preSPath2 postSPath postSPath2 : AccPathVar)
    (preR preR2 : AccountInformationVar)
    (preRPath preRPath2 postRPath postRPath2 : AccPathVar)
    (preRoot preRoot2 postRoot postRoot2 : AccRootVar)
    (hP : P = Q) (hpreS : preS = preS2) (h1 : preSPath = preSPath2)
    (h2 : postSPath = postSPath2) (hpreR : preR = preR2)
    (h3 : preRPath = preRPath2) (h4 : postRPath = postRPath2)
    (h5 : preRoot = preRoot2) (h6 : postRoot = postRoot2) :
    tx.validate G P preS preSPath postSPath preR preRPath postRPath
      preRoot postRoot =
    tx.validate G Q preS2 preSPath2 postSPath2 preR2 preRPath2 postRPath2
      preRoot2 postRoot2 := by
  subst hP hpreS h1 h2 hpreR h3 h4 h5 h6
  rfl

/-- Witness for C8: determinism instantiated on a concrete input. -/
theorem validate_deterministic_witness :
    TransactionVar.validate ⟨⟨1⟩, ⟨2⟩, ⟨30⟩, ⟨7⟩⟩
      ⟨fun _ _ _ _ => Except.ok true, fun _ _ _ _ _ => Except.ok true⟩
      ⟨⟨0⟩, ⟨1⟩, ⟨2⟩⟩ ⟨⟨5⟩, ⟨100⟩⟩ ⟨1⟩ ⟨2⟩ ⟨⟨6⟩, ⟨10⟩⟩ ⟨3⟩ ⟨4⟩
      ⟨11⟩ ⟨12⟩ =
    TransactionVar.validate ⟨⟨1⟩, ⟨2⟩, ⟨30⟩, ⟨7⟩⟩
      ⟨fun _ _ _ _ => Except.ok true, fun _ _ _ _ _ => Except.ok true⟩
      ⟨⟨0⟩, ⟨1⟩, ⟨2⟩⟩ ⟨⟨5⟩, ⟨100⟩⟩ ⟨1⟩ ⟨2⟩ ⟨⟨6⟩, ⟨10⟩⟩ ⟨3⟩ ⟨4⟩
      ⟨11⟩ ⟨12⟩ :=
  validate_deterministic ⟨⟨1⟩, ⟨2⟩, ⟨30⟩, ⟨7⟩⟩
    ⟨fun _ _ _ _ => Except.ok true, fun _ _ _ _ _ => Except.ok true⟩
    ⟨⟨0⟩, ⟨1⟩, ⟨2⟩⟩ ⟨⟨0⟩, ⟨1⟩, ⟨2⟩⟩ ⟨⟨5⟩, ⟨100⟩⟩ ⟨⟨5⟩, ⟨100⟩⟩
    ⟨1⟩ ⟨1⟩ ⟨2⟩ ⟨2⟩ ⟨⟨6⟩, ⟨10⟩⟩ ⟨⟨6⟩, ⟨10⟩⟩ ⟨3⟩ ⟨3⟩ ⟨4⟩ ⟨4⟩
    ⟨11⟩ ⟨11⟩ ⟨12⟩ ⟨12⟩ rfl rfl rfl rfl rfl rfl rfl rfl rfl

/-! ### C9: construction errors propagate immediately -/

/-- C9: if any sub-gadget invoked by `validate` (signature verification,
checked subtraction, checked addition, or any of the four membership
checks) fails with a construction error, `validate` returns exactly that
error and the call trace stops at the failing gadget — no later gadget is
invoked and no boolean result is produced. -/
theorem validate_error_propagation (tx : TransactionVar) (G : Gadgets)
    (P : ParametersVar) (preS : AccountInformationVar)
    (preSPath postSPath : AccPathVar) (preR : AccountInformationVar)
    (preRPath postRPath : AccPathVar) (preRoot postRoot : AccRootVar)
    (e : SynthesisError) :
    ((tx.verify_signature G P.sig_params preS.public_key).1 =
        Except.error e →
      tx.validate G P preS preSPath postSPath preR preRPath postRPath
        preRoot postRoot =
        (Except.error e,
         [(tx.verify_signature G P.sig_params preS.public_key).2])) ∧
    (∀ sv : Bool,
      (tx.verify_signature G P.sig_params preS.public_key).1 =
        Except.ok sv →
      preS.balance.checked_sub tx.amount = Except.error e →
      tx.validate G P preS preSPath postSPath preR preRPath postRPath
        preRoot postRoot =
        (Except.error e,
         [(tx.verify_signature G P.sig_params preS.public_key).2,
          GadgetCall.csub preS.balance tx.amount])) ∧
    (∀ (sv : Bool) (sb : AmountVar),
      (tx.verify_signature G P.sig_params preS.public_key).1 =
        Except.ok sv →
      preS.balance.checked_sub tx.amount = Except.ok sb →
      preR.balance.checked_add tx.amount = Except.error e →
      tx.validate G P preS preSPath postSPath preR preRPath postRPath
        preRoot postRoot =
        (Except.error e,
         [(tx.verify_signature G P.sig_params preS.public_key).2,
          GadgetCall.csub preS.balance tx.amount,
          GadgetCall.cadd preR.balance tx.amount])) ∧
    (∀ (sv : Bool) (sb rb : AmountVar),
      (tx.verify_signature G P.sig_params preS.public_key).1 =
        Except.ok sv →
      preS.balance.checked_sub tx.amount = Except.ok sb →
      preR.balance.checked_add tx.amount = Except.ok rb →
      (tx.check_account_existence G P preSPath preS preRoot).1 =
        Except.error e →
      tx.validate G P preS preSPath postSPath preR preRPath postRPath
        preRoot postRoot =
        (Except.error e,
         [(tx.verify_signature G P.sig_params preS.public_key).2,
          GadgetCall.csub preS.balance tx.amount,
          GadgetCall.cadd preR.balance tx.amount,
          GadgetCall.membership preSPath preS preRoot])) ∧
    (∀ (sv : Bool) (sb rb : AmountVar) (b1 : Bool),
      (tx.verify_signature G P.sig_params preS.public_key).1 =
        Except.ok sv →
      preS.balance.checked_sub tx.amount = Except.ok sb →
      preR.balance.checked_add tx.amount = Except.ok rb →
      (tx.check_account_existence G P preSPath preS preRoot).1 =
        Except.ok b1 →
      (tx.check_account_existence G P postSPath ⟨preS.public_key, sb⟩
        postRoot).1 = Except.error e →
      tx.validate G P preS preSPath postSPath preR preRPath postRPath
        preRoot postRoot =
        (Except.error e,
         [(tx.verify_signature G P.sig_params preS.public_key).2,
          GadgetCall.csub preS.balance tx.amount,
          GadgetCall.cadd preR.balance tx.amount,
          GadgetCall.membership preSPath preS preRoot,
          GadgetCall.membership postSPath ⟨preS.public_key, sb⟩ postRoot])) ∧
    (∀ (sv : Bool) (sb rb : AmountVar) (b1 b2 : Bool),
      (tx.verify_signature G P.sig_params preS.public_key).1 =
        Except.ok sv →
      preS.balance.checked_sub tx.amount = Except.ok sb →
      preR.balance.checked_add tx.amount = Except.ok rb →
      (tx.check_account_existence G P preSPath preS preRoot).1 =
        Except.ok b1 →
      (tx.check_account_existence G P postSPath ⟨preS.public_key, sb⟩
        postRoot).1 = Except.ok b2 →
      (tx.check_account_existence G P preRPath preR preRoot).1 =
        Except.error e →
      tx.validate G P preS preSPath postSPath preR preRPath postRPath
        preRoot postRoot =
        (Except.error e,
         [(tx.verify_signature G P.sig_params preS.public_key).2,
          GadgetCall.csub preS.balance tx.amount,
          GadgetCall.cadd preR.balance tx.amount,
          GadgetCall.membership preSPath preS preRoot,
          GadgetCall.membership postSPath ⟨preS.public_key, sb⟩ postRoot,
          GadgetCall.membership preRPath preR preRoot])) ∧
    (∀ (sv : Bool) (sb rb : AmountVar) (b1 b2 b3 : Bool),
      (tx.verify_signature G P.sig_params preS.public_key).1 =
        Except.ok sv →
      preS.balance.checked_sub tx.amount = Except.ok sb →
      preR.balance.checked_add tx.amount = Except.ok rb →
      (tx.check_account_existence G P preSPath preS preRoot).1 =
        Except.ok b1 →
      (tx.check_account_existence G P postSPath ⟨preS.public_key, sb⟩
        postRoot).1 = Except.ok b2 →
      (tx.check_account_existence G P preRPath preR preRoot).1 =
        Except.ok b3 →
      (tx.check_account_existence G P postRPath ⟨preR.public_key, rb⟩
        postRoot).1 = Except.error e →
      tx.validate G P preS preSPath postSPath preR preRPath postRPath
        preRoot postRoot =
        (Except.error e,
         [(tx.verify_signature G P.sig_params preS.public_key).2,
          GadgetCall.csub preS.balance tx.amount,
          GadgetCall.cadd preR.balance tx.amount,
          GadgetCall.membership preSPath preS preRoot,
          GadgetCall.membership postSPath ⟨preS.public_key, sb⟩ postRoot,
          GadgetCall.membership preRPath preR preRoot,
          GadgetCall.membership postRPath ⟨preR.public_key, rb⟩ postRoot])) := by
  refine ⟨?_, ?_, ?_, ?_, ?_, ?_, ?_⟩
  · intro hs
    simp only [TransactionVar.validate, hs]
  · intro sv hs hsub
    simp only [TransactionVar.validate, hs, hsub]
  · intro sv sb hs hsub hadd
    simp only [TransactionVar.validate, hs, hsub, hadd]
  · intro sv sb rb hs hsub hadd hx1
    have hm1 : G.verifyMembership preSPath P.leaf_crh_params
        P.two_to_one_crh_params preRoot preS.to_bytes_le =
        Except.error e := hx1
    simp only [TransactionVar.validate, TransactionVar.check_account_existence,
      hs, hsub, hadd, hm1]
  · intro sv sb rb b1 hs hsub hadd hx1 hx2
    have hm1 : G.verifyMembership preSPath P.leaf_crh_params
        P.two_to_one_crh_params preRoot preS.to_bytes_le =
        Except.ok b1 := hx1
    have hm2 : G.verifyMembership postSPath P.leaf_crh_params
        P.two_to_one_crh_params postRoot
        (AccountInformationVar.mk preS.public_key sb).to_bytes_le =
        Except.error e := hx2
    simp only [TransactionVar.validate, TransactionVar.check_account_existence,
      hs, hsub, hadd, hm1, hm2]
  · intro sv sb rb b1 b2 hs hsub hadd hx1 hx2 hx3
    have hm1 : G.verifyMembership preSPath P.leaf_crh_params
        P.two_to_one_crh_params preRoot preS.to_bytes_le =
        Except.ok b1 := hx1
    have hm2 : G.verifyMembership postSPath P.leaf_crh_params
        P.two_to_one_crh_params postRoot
        (AccountInformationVar.mk preS.public_key sb).to_bytes_le =
        Except.ok b2 := hx2
    have hm3 : G.verifyMembership preRPath P.leaf_crh_params
        P.two_to_one_crh_params preRoot preR.to_bytes_le =
        Except.error e := hx3
    simp only [TransactionVar.validate, TransactionVar.check_account_existence,
      hs, hsub, hadd, hm1, hm2, hm3]
  · intro sv sb rb b1 b2 b3 hs hsub hadd hx1 hx2 hx3 hx4
    have hm1 : G.verifyMembership preSPath P.leaf_crh_params
        P.two_to_one_crh_params preRoot preS.to_bytes_le =
        Except.ok b1 := hx1
    have hm2 : G.verifyMembership postSPath P.leaf_crh_params
        P.two_to_one_crh_params postRoot
        (AccountInformationVar.mk preS.public_key sb).to_bytes_le =
        Except.ok b2 := hx2
    have hm3 : G.verifyMembership preRPath P.leaf_crh_params
        P.two_to_one_crh_params preRoot preR.to_bytes_le =
        Except.ok b3 := hx3
    have hm4 : G.verifyMembership postRPath P.leaf_crh_params
        P.two_to_one_crh_params postRoot
        (AccountInformationVar.mk preR.public_key rb).to_bytes_le =
        Except.error e := hx4
    simp only [TransactionVar.validate, TransactionVar.check_account_existence,
      hs, hsub, hadd, hm1, hm2, hm3, hm4]

/-- Witness for C9: a signature gadget failing with a construction error on
a concrete input; `validate` returns that error and the trace stops at the
signature call. -/
theorem validate_error_propagation_witness :
    TransactionVar.validate ⟨⟨1⟩, ⟨2⟩, ⟨30⟩, ⟨7⟩⟩
      ⟨fun _ _ _ _ => Except.error SynthesisError.assignmentMissing,
       fun _ _ _ _ _ => Except.ok true⟩
      ⟨⟨0⟩, ⟨1⟩, ⟨2⟩⟩ ⟨⟨5⟩, ⟨100⟩⟩ ⟨1⟩ ⟨2⟩ ⟨⟨6⟩, ⟨10⟩⟩ ⟨3⟩ ⟨4⟩
      ⟨11⟩ ⟨12⟩ =
      (Except.error SynthesisError.assignmentMissing,
       [(TransactionVar.verify_signature ⟨⟨1⟩, ⟨2⟩, ⟨30⟩, ⟨7⟩⟩
          ⟨fun _ _ _ _ => Except.error SynthesisError.assignmentMissing,
           fun _ _ _ _ _ => Except.ok true⟩ ⟨0⟩ ⟨5⟩).2]) :=
  (validate_error_propagation ⟨⟨1⟩, ⟨2⟩, ⟨30⟩, ⟨7⟩⟩
    ⟨fun _ _ _ _ => Except.error SynthesisError.assignmentMissing,
     fun _ _ _ _ _ => Except.ok true⟩
    ⟨⟨0⟩, ⟨1⟩, ⟨2⟩⟩ ⟨⟨5⟩, ⟨100⟩⟩ ⟨1⟩ ⟨2⟩ ⟨⟨6⟩, ⟨10⟩⟩ ⟨3⟩ ⟨4⟩ ⟨11⟩ ⟨12⟩
    SynthesisError.assignmentMissing).1 (by rfl)

/-! ### C5: allocation uses one mode and fails only on primitive failures -/

/-- C5: for every source transaction and every allocation mode,
`TransactionVar::new_variable` allocates all four fields (sender,
recipient, amount, signature) with that same mode, and it returns an error
exactly when one of the underlying field-allocation primitives fails (a
value out of its representable range) — no semantic validation of the
transaction's values happens at allocation time. -/
theorem new_variable_modes_and_errors (cs : List AllocEvent)
    (tx : Transaction) (mode : AllocationMode) :
    (tx.sender < idRange → tx.recipient < idRange →
      tx.amount < amountRange → tx.signature < sigRange →
      TransactionVar.new_variable cs (Except.ok tx) mode =
        (Except.ok ⟨⟨tx.sender⟩, ⟨tx.recipient⟩, ⟨tx.amount⟩,
          ⟨tx.signature⟩⟩,
         cs ++ [AllocEvent.idAlloc tx.sender mode,
                AllocEvent.idAlloc tx.recipient mode,
                AllocEvent.amountAlloc tx.amount mode,
                AllocEvent.sigAlloc tx.signature mode])) ∧
    ((∃ e, (TransactionVar.new_variable cs (Except.ok tx) mode).1 =
        Except.error e) ↔
      (idRange ≤ tx.sender ∨ idRange ≤ tx.recipient ∨
       amountRange ≤ tx.amount ∨ sigRange ≤ tx.signature)) := by
  constructor
  · intro hs hr ha hg
    simp [TransactionVar.new_variable, AccountIdVar.new_variable,
      AmountVar.new_variable, SignatureVar.new_variable, hs, hr, ha, hg]
  · constructor
    · rintro ⟨e, he⟩
      by_contra hc
      push_neg at hc
      obtain ⟨hs, hr, ha, hg⟩ := hc
      have hsucc : TransactionVar.new_variable cs (Except.ok tx) mode =
          (Except.ok ⟨⟨tx.sender⟩, ⟨tx.recipient⟩, ⟨tx.amount⟩,
            ⟨tx.signature⟩⟩,
           cs ++ [AllocEvent.idAlloc tx.sender mode,
                  AllocEvent.idAlloc tx.recipient mode,
                  AllocEvent.amountAlloc tx.amount mode,
                  AllocEvent.sigAlloc tx.signature mode]) := by
        simp [TransactionVar.new_variable, AccountIdVar.new_variable,
          AmountVar.new_variable, SignatureVar.new_variable, hs, hr, ha, hg]
      rw [hsucc] at he
      simp at he
    · intro hor
      by_cases hs : tx.sender < idRange
      · by_cases hr : tx.recipient < idRange
        · by_cases ha : tx.amount < amountRange
          · by_cases hg : tx.signature < sigRange
            · exfalso; rcases hor with h | h | h | h <;> omega
            · refine ⟨SynthesisError.assignmentMissing, ?_⟩
              simp [TransactionVar.new_variable, AccountIdVar.new_variable,
                AmountVar.new_variable, SignatureVar.new_variable,
                hs, hr, ha, hg]
          · refine ⟨SynthesisError.assignmentMissing, ?_⟩
            simp [TransactionVar.new_variable, AccountIdVar.new_variable,
              AmountVar.new_variable, hs, hr, ha]
        · refine ⟨SynthesisError.assignmentMissing, ?_⟩
          simp [TransactionVar.new_variable, AccountIdVar.new_variable,
            hs, hr]
      · refine ⟨SynthesisError.assignmentMissing, ?_⟩
        simp [TransactionVar.new_variable, AccountIdVar.new_variable, hs]

/-- Witness for C5: a concrete allocation in public-input mode producing
all four fields with that mode. -/
theorem new_variable_modes_and_errors_witness :
    TransactionVar.new_variable [] (Except.ok ⟨1, 2, 30, 7⟩)
      AllocationMode.publicInput =
      (Except.ok ⟨⟨1⟩, ⟨2⟩, ⟨30⟩, ⟨7⟩⟩,
       [AllocEvent.idAlloc 1 AllocationMode.publicInput,
        AllocEvent.idAlloc 2 AllocationMode.publicInput,
        AllocEvent.amountAlloc 30 AllocationMode.publicInput,
        AllocEvent.sigAlloc 7 AllocationMode.publicInput]) :=
  (new_variable_modes_and_errors [] ⟨1, 2, 30, 7⟩
    AllocationMode.publicInput).1 (by decide) (by decide) (by decide)
    (by decide)

/-! ### C10: closure evaluation, allocation order, partial allocation -/

/-- C10: `TransactionVar::new_variable` consumes the value-producing
closure's single result: if that result is an error, the same error is
returned and nothing is allocated; on success the fields are allocated in
the fixed order sender, recipient, amount, signature, and when an
intermediate allocation fails the error is returned with only the earlier
fields allocated. -/
theorem new_variable_order_and_partial_alloc (cs : List AllocEvent)
    (mode : AllocationMode) :
    (∀ e : SynthesisError,
      TransactionVar.new_variable cs (Except.error e) mode =
        (Except.error e, cs)) ∧
    (∀ tx : Transaction, idRange ≤ tx.sender →
      TransactionVar.new_variable cs (Except.ok tx) mode =
        (Except.error SynthesisError.assignmentMissing, cs)) ∧
    (∀ tx : Transaction, tx.sender < idRange → idRange ≤ tx.recipient →
      TransactionVar.new_variable cs (Except.ok tx) mode =
        (Except.error SynthesisError.assignmentMissing,
         cs ++ [AllocEvent.idAlloc tx.sender mode])) ∧
    (∀ tx : Transaction, tx.sender < idRange → tx.recipient < idRange →
      amountRange ≤ tx.amount →
      TransactionVar.new_variable cs (Except.ok tx) mode =
        (Except.error SynthesisError.assignmentMissing,
         cs ++ [AllocEvent.idAlloc tx.sender mode,
                AllocEvent.idAlloc tx.recipient mode])) ∧
    (∀ tx : Transaction, tx.sender < idRange → tx.recipient < idRange →
      tx.amount < amountRange → sigRange ≤ tx.signature →
      TransactionVar.new_variable cs (Except.ok tx) mode =
        (Except.error SynthesisError.assignmentMissing,
         cs ++ [AllocEvent.idAlloc tx.sender mode,
                AllocEvent.idAlloc tx.recipient mode,
                AllocEvent.amountAlloc tx.amount mode])) ∧
    (∀ tx : Transaction, tx.sender < idRange → tx.recipient < idRange →
      tx.amount < amountRange → tx.signature < sigRange →
      TransactionVar.new_variable cs (Except.ok tx) mode =
        (Except.ok ⟨⟨tx.sender⟩, ⟨tx.recipient⟩, ⟨tx.amount⟩,
          ⟨tx.signature⟩⟩,
         cs ++ [AllocEvent.idAlloc tx.sender mode,
                AllocEvent.idAlloc tx.recipient mode,
                AllocEvent.amountAlloc tx.amount mode,
                AllocEvent.sigAlloc tx.signature mode])) := by
  refine ⟨fun e => rfl, ?_, ?_, ?_, ?_, ?_⟩
  · intro tx hs
    have hs2 : ¬ tx.sender < idRange := by omega
    simp [TransactionVar.new_variable, AccountIdVar.new_variable, hs2]
  · intro tx hs hr
    have hr2 : ¬ tx.recipient < idRange := by omega
    simp [TransactionVar.new_variable, AccountIdVar.new_variable, hs, hr2]
  · intro tx hs hr ha
    have ha2 : ¬ tx.amount < amountRange := by omega
    simp [TransactionVar.new_variable, AccountIdVar.new_variable,
      AmountVar.new_variable, hs, hr, ha2]
  · intro tx hs hr ha hg
    have hg2 : ¬ tx.signature < sigRange := by omega
    simp [TransactionVar.new_variable, AccountIdVar.new_variable,
      AmountVar.new_variable, SignatureVar.new_variable, hs, hr, ha, hg2]
  · intro tx hs hr ha hg
    simp [TransactionVar.new_variable, AccountIdVar.new_variable,
      AmountVar.new_variable, SignatureVar.new_variable, hs, hr, ha, hg]

/-- Witness for C10: a concrete intermediate allocation failure — the
recipient id is out of range, so only the sender's variable is allocated
and the error is returned. -/
theorem new_variable_order_and_partial_alloc_witness :
    TransactionVar.new_variable [] (Except.ok ⟨1, 300, 30, 7⟩)
      AllocationMode.witnessMode =
      (Except.error SynthesisError.assignmentMissing,
       [AllocEvent.idAlloc 1 AllocationMode.witnessMode]) :=
  (new_variable_order_and_partial_alloc [] AllocationMode.witnessMode).2.2.1
    ⟨1, 300, 30, 7⟩ (by decide) (by decide)
